import Mathlib

/-!
Verification of the CorroSight backend analytical core (alignment, matching,
growth scoring, multi-run chaining) against its specification.

The Python modules `backend/matching.py`, `backend/growth.py`,
`backend/multi_run.py`, `backend/alignment.py` and `backend/data_ingestion.py`
are shallowly embedded below.  Conventions:

* Missing measurements (NaN in pandas) are `Option` values: `none` is NaN.
  Fields that the pipeline guarantees non-NaN on the rows it processes
  (corrected distance of rows kept by `get_anomalies`, which requires a
  non-null `log_distance_ft`, mapped by the aligner to a finite corrected
  distance) are plain `Rat`.
* Python floats are embedded as `Rat`; `round(x, n)` is exact round-half-even
  (`roundTo`), Python's `%` on non-negative floats is `pymod`.
* The scipy KD-tree radius query of `match_anomalies` only pre-restricts the
  candidate set before the exact distance/clock/type gates are re-checked;
  its geometry involves cos/sin/sqrt, so it is modelled as an arbitrary
  Boolean pre-filter parameter `kdF`.  Every theorem below holds for every
  pre-filter, in particular for the one scipy computes.
* `scipy.optimize.linear_sum_assignment` is modelled by exhaustive
  minimisation over all one-to-one assignments of the smaller side, with a
  fixed (enumeration-order) tie-break; scipy leaves the tie-break
  unspecified and no theorem below depends on it.
* DataFrame columns never read or written by the verified components
  (id_od, comments, wall thickness, elevation, the delta columns of the
  girth-weld table, ...) are omitted from the record structures.
-/

set_option maxRecDepth 4000

/-- Floor of a rational, as the integer cast back to `Rat`. -/
def ratFloor (x : Rat) : Int := x.floor




/-- Round-half-to-even on rationals: the semantics of Python's built-in
`round` and of numpy/pandas `round`, exact on our `Rat` embedding. -/
def rhe (x : Rat) : Int :=
  if x - ratFloor x < 1/2 then ratFloor x
  else if x - ratFloor x = 1/2 then
    (if ratFloor x % 2 = 0 then ratFloor x else ratFloor x + 1)
  else ratFloor x + 1





/-- Exact model of Python `round(x, n)` (numpy/pandas `round` agrees):
round half to even at the n-th decimal. -/
def roundTo (n : Nat) (x : Rat) : Rat :=
  (rhe (x * ((10 ^ n : Nat) : Rat)) : Rat) / ((10 ^ n : Nat) : Rat)



/-- Python `x % m` for rationals (exact on the floats the code handles):
`x - m * floor (x / m)`, in `[0, m)` for `m > 0`. -/
def pymod (x m : Rat) : Rat := x - m * (ratFloor (x / m) : Rat)

-- ── Configuration constants (backend/config.py) ────────────────────────────

def DISTANCE_TOLERANCE_FT : Rat := 3
def CLOCK_TOLERANCE_HOURS : Rat := 1
def WEIGHT_DISTANCE : Rat := 35/100
def WEIGHT_CLOCK : Rat := 25/100
def WEIGHT_DEPTH : Rat := 20/100
def WEIGHT_DIMENSIONS : Rat := 10/100
def WEIGHT_TYPE : Rat := 10/100
def HIGH_CONFIDENCE : Rat := 85/100
def MEDIUM_CONFIDENCE : Rat := 60/100
def LOW_CONFIDENCE : Rat := 40/100
def MAX_PLAUSIBLE_GROWTH_RATE : Rat := 5
def WALL_LOSS_REPAIR_THRESHOLD : Rat := 80

def YEARS_BETWEEN : List ((Int × Int) × Rat) :=
  [((2007, 2015), 8), ((2015, 2022), 7), ((2007, 2022), 15)]

def ANOMALY_TYPES : List String :=
  ["Metal Loss", "Cluster", "Metal Loss Manufacturing", "Dent",
   "Seam Weld Manufacturing", "Seam Weld Anomaly", "Seam Weld Dent",
   "Girth Weld Anomaly"]

def COMPATIBLE_TYPES : List (String × List String) :=
  [("Metal Loss", ["Metal Loss", "Cluster"]),
   ("Cluster", ["Metal Loss", "Cluster"]),
   ("Metal Loss Manufacturing", ["Metal Loss Manufacturing", "Seam Weld Manufacturing"]),
   ("Seam Weld Manufacturing", ["Metal Loss Manufacturing", "Seam Weld Manufacturing"]),
   ("Dent", ["Dent", "Seam Weld Dent"]),
   ("Seam Weld Dent", ["Dent", "Seam Weld Dent"]),
   ("Seam Weld Anomaly", ["Seam Weld Anomaly"]),
   ("Girth Weld Anomaly", ["Girth Weld Anomaly"])]

-- ── Growth scorer (backend/growth.py) ──────────────────────────────────────

/-- The columns of the matches DataFrame read or written by
`calculate_growth_rates`.  The base columns come from the matcher; the five
derived columns start absent (`none`) and are assigned by the scorer. -/
structure GrowthRow where
  later_depth_pct : Option Rat
  depth_growth_rate : Option Rat
  remaining_wall_pct : Option Rat := none
  remaining_life_years : Option Rat := none
  growth_class : Option String := none
  risk_score : Option Rat := none
  risk_category : Option String := none
deriving DecidableEq, Repr

/-- `_remaining_life` of growth.py: NaN for missing or non-positive rate or
missing depth; 0 once depth is at the 80 % repair threshold; otherwise the
years to threshold rounded to one decimal. -/
def _remaining_life (row : GrowthRow) : Option Rat :=
  match row.depth_growth_rate, row.later_depth_pct with
  | some rate, some current =>
    if rate ≤ 0 then none
    else
      let remaining_capacity := WALL_LOSS_REPAIR_THRESHOLD - current
      if remaining_capacity ≤ 0 then some 0
      else some (roundTo 1 (remaining_capacity / rate))
  | _, _ => none

/-- `_classify_growth` of growth.py. -/
def _classify_growth (rate : Option Rat) : String :=
  match rate with
  | none => "Unknown"
  | some r =>
    if r < 0 then "Apparent Shrinkage"
    else if r = 0 then "Stable"
    else if r ≤ 1 then "Low"
    else if r ≤ 3 then "Moderate"
    else if r ≤ MAX_PLAUSIBLE_GROWTH_RATE then "High"
    else "Severe"

/-- `_compute_risk_score` of growth.py: clamped depth component plus clamped
rate component, rounded to one decimal.  NaN depth counts as 0; NaN or
negative rate counts as 0. -/
def _compute_risk_score (row : GrowthRow) : Rat :=
  let depth := match row.later_depth_pct with | none => 0 | some d => d
  let rate := match row.depth_growth_rate with
    | none => 0
    | some r => if r < 0 then 0 else r
  let depth_score := min 50 (depth * 50 / WALL_LOSS_REPAIR_THRESHOLD)
  let rate_score := min 50 (rate * 50 / MAX_PLAUSIBLE_GROWTH_RATE)
  roundTo 1 (depth_score + rate_score)

/-- `_classify_risk` of growth.py. -/
def _classify_risk (score : Option Rat) : String :=
  match score with
  | none => "Unknown"
  | some s =>
    if s ≥ 70 then "Critical"
    else if s ≥ 50 then "High"
    else if s ≥ 30 then "Medium"
    else "Low"

/-- Per-row column assignments of `calculate_growth_rates`. -/
def scoreGrowthRow (r : GrowthRow) : GrowthRow :=
  { r with
    remaining_wall_pct := r.later_depth_pct.map (fun d => 100 - d)
    remaining_life_years := _remaining_life r
    growth_class := some (_classify_growth r.depth_growth_rate)
    risk_score := some (_compute_risk_score r)
    risk_category := some (_classify_risk (some (_compute_risk_score r))) }

/-- `calculate_growth_rates` of growth.py: empty input returned unchanged,
otherwise every row gets the five derived columns. -/
def calculate_growth_rates (matches_df : List GrowthRow) : List GrowthRow :=
  if matches_df.isEmpty then matches_df
  else matches_df.map scoreGrowthRow

-- ── Run rows and anomaly extraction (backend/data_ingestion.py) ────────────

/-- One normalized feature row of a corrected (aligned) run.  `none` is NaN.
`corrected_distance` is a plain `Rat`: rows reaching the matcher pass the
`get_anomalies` filter (non-null `log_distance_ft`) and the aligner maps
every non-null raw distance to a finite corrected distance.  Columns never
read by the verified components (id_od, comments, wall thickness,
elevation, depth_in, ...) are omitted. -/
structure RunRow where
  event_type : String
  is_anomaly : Bool
  is_girth_weld : Bool
  log_distance_ft : Option Rat
  corrected_distance : Rat
  clock_hours : Option Rat
  depth_pct : Option Rat
  length_in : Option Rat
  width_in : Option Rat
  joint_number : Option Int
  run_year : Int
  source_row_idx : Nat
deriving DecidableEq, Repr, Inhabited

/-- `get_anomalies` of data_ingestion.py: anomaly rows with non-null depth
and non-null log distance. -/
def get_anomalies (df : List RunRow) : List RunRow :=
  df.filter (fun r => r.is_anomaly && r.depth_pct.isSome && r.log_distance_ft.isSome)

-- ── Matching engine (backend/matching.py) ──────────────────────────────────

/-- `clock_distance`: circular distance between clock positions on the
12-hour dial, in [0, 6]; 6.0 (diametrically opposite) when either side is
NaN. -/
def clock_distance (h1 h2 : Option Rat) : Rat :=
  match h1, h2 with
  | some a, some b =>
    let diff := pymod |a - b| 12
    min diff (12 - diff)
  | _, _ => 6

/-- `types_compatible`: exact match, or membership in the
`COMPATIBLE_TYPES` set for the first type (defaulting to the singleton of
the first type). -/
def types_compatible (type_a type_b : String) : Bool :=
  if type_a = type_b then true
  else ((COMPATIBLE_TYPES.lookup type_a).getD [type_a]).contains type_b

/-- `_safe_diff`: absolute difference with a 1.5 penalty when either value
is missing. -/
def _safe_diff (a b : Option Rat) : Rat :=
  match a, b with
  | some x, some y => |x - y|
  | _, _ => 3/2

/-- `_safe_sub`: subtraction propagating NaN (shared by matching.py and
multi_run.py). -/
def _safe_sub (a b : Option Rat) : Option Rat :=
  match a, b with
  | some x, some y => some (x - y)
  | _, _ => none

/-- `compute_similarity`: weighted blend of the five sub-scores.  The
`years_between` argument is unused by the source function as well. -/
def compute_similarity (a_later a_earlier : RunRow) (years_between : Rat) : Rat :=
  let dist_diff := |a_later.corrected_distance - a_earlier.corrected_distance|
  let s_dist := max 0 (1 - dist_diff / DISTANCE_TOLERANCE_FT)
  let clk_diff := clock_distance a_later.clock_hours a_earlier.clock_hours
  let s_clock := max 0 (1 - clk_diff / (CLOCK_TOLERANCE_HOURS * 6))
  let s_depth :=
    match a_later.depth_pct, a_earlier.depth_pct with
    | some d_later, some d_earlier =>
      let depth_diff := d_later - d_earlier
      if depth_diff ≥ 0 then max 0 (1 - depth_diff / 30)
      else max 0 (1 - |depth_diff| / 10)
    | _, _ => 1/2
  let len_diff := _safe_diff a_later.length_in a_earlier.length_in
  let wid_diff := _safe_diff a_later.width_in a_earlier.width_in
  let s_dim := max 0 (1 - (len_diff + wid_diff) / 6)
  let s_type := if a_later.event_type = a_earlier.event_type then 1 else 7/10
  WEIGHT_DISTANCE * s_dist + WEIGHT_CLOCK * s_clock + WEIGHT_DEPTH * s_depth +
    WEIGHT_DIMENSIONS * s_dim + WEIGHT_TYPE * s_type

/-- `_compute_confidence`: 4-factor weighted model, rounded to 4 decimals. -/
def _compute_confidence (similarity : Rat) (n_candidates : Nat)
    (a_later a_earlier : RunRow) (years_between : Rat) : Rat :=
  let f_sim := similarity
  let f_unique : Rat :=
    if n_candidates ≤ 1 then 1
    else if n_candidates = 2 then 7/10
    else max (3/10) (1 - (n_candidates : Rat) * (1/10))
  let f_plaus : Rat :=
    match a_later.depth_pct, a_earlier.depth_pct with
    | some d_l, some d_e =>
      if 0 < years_between then
        let growth_rate := (d_l - d_e) / years_between
        if 0 ≤ growth_rate ∧ growth_rate ≤ MAX_PLAUSIBLE_GROWTH_RATE then 1
        else if growth_rate < 0 then max 0 (1/2 + growth_rate / 10)
        else max (2/10) (1 - (growth_rate - MAX_PLAUSIBLE_GROWTH_RATE) / 10)
      else 1/2
    | _, _ => 1/2
  let f_joint : Rat :=
    match a_later.joint_number, a_earlier.joint_number with
    | some jn_l, some jn_e => if jn_l = jn_e then 1 else 6/10
    | _, _ => 1/2
  roundTo 4 ((40:Rat)/100 * f_sim + 25/100 * f_unique + 20/100 * f_plaus + 15/100 * f_joint)

/-- `_classify_confidence`: map a confidence score to HIGH / MEDIUM / LOW. -/
def _classify_confidence (confidence : Rat) : String :=
  if confidence ≥ HIGH_CONFIDENCE then "HIGH"
  else if confidence ≥ MEDIUM_CONFIDENCE then "MEDIUM"
  else "LOW"

/-- One row of the matches DataFrame built by `_build_match_record`
(id_od, comments and wall-thickness columns omitted: no verified component
reads them). -/
structure MatchRecord where
  similarity : Rat
  confidence : Rat
  confidence_label : String
  earlier_year : Int
  earlier_joint : Option Int
  earlier_distance : Rat
  earlier_orig_distance : Option Rat
  earlier_clock : Option Rat
  earlier_depth_pct : Option Rat
  earlier_length_in : Option Rat
  earlier_width_in : Option Rat
  earlier_event_type : String
  earlier_row_idx : Nat
  later_year : Int
  later_joint : Option Int
  later_distance : Rat
  later_orig_distance : Option Rat
  later_clock : Option Rat
  later_depth_pct : Option Rat
  later_length_in : Option Rat
  later_width_in : Option Rat
  later_event_type : String
  later_row_idx : Nat
  years_between : Rat
  depth_growth_pct : Option Rat
  depth_growth_rate : Option Rat
  length_growth_in : Option Rat
  length_growth_rate : Option Rat
  width_growth_in : Option Rat
  width_growth_rate : Option Rat
deriving DecidableEq, Repr, Inhabited

/-- `_build_match_record` of matching.py. -/
def _build_match_record (a_later a_earlier : RunRow) (similarity confidence : Rat)
    (conf_label : String) (years_between : Rat) : MatchRecord :=
  let depth_growth := _safe_sub a_later.depth_pct a_earlier.depth_pct
  let length_growth := _safe_sub a_later.length_in a_earlier.length_in
  let width_growth := _safe_sub a_later.width_in a_earlier.width_in
  let depth_rate := depth_growth.map (fun g => g / years_between)
  let length_rate := length_growth.map (fun g => g / years_between)
  let width_rate := width_growth.map (fun g => g / years_between)
  { similarity := roundTo 4 similarity
    confidence := confidence
    confidence_label := conf_label
    earlier_year := a_earlier.run_year
    earlier_joint := a_earlier.joint_number
    earlier_distance := roundTo 2 a_earlier.corrected_distance
    earlier_orig_distance := a_earlier.log_distance_ft.map (roundTo 2)
    earlier_clock := a_earlier.clock_hours.map (roundTo 2)
    earlier_depth_pct := a_earlier.depth_pct
    earlier_length_in := a_earlier.length_in
    earlier_width_in := a_earlier.width_in
    earlier_event_type := a_earlier.event_type
    earlier_row_idx := a_earlier.source_row_idx
    later_year := a_later.run_year
    later_joint := a_later.joint_number
    later_distance := roundTo 2 a_later.corrected_distance
    later_orig_distance := a_later.log_distance_ft.map (roundTo 2)
    later_clock := a_later.clock_hours.map (roundTo 2)
    later_depth_pct := a_later.depth_pct
    later_length_in := a_later.length_in
    later_width_in := a_later.width_in
    later_event_type := a_later.event_type
    later_row_idx := a_later.source_row_idx
    years_between := years_between
    depth_growth_pct := depth_growth.map (roundTo 2)
    depth_growth_rate := depth_rate.map (roundTo 3)
    length_growth_in := length_growth.map (roundTo 2)
    length_growth_rate := length_rate.map (roundTo 3)
    width_growth_in := width_growth.map (roundTo 2)
    width_growth_rate := width_rate.map (roundTo 3) }

-- ── Minimum-cost one-to-one assignment (scipy linear_sum_assignment) ───────

/-- All ways of assigning `n` rows, in order, to pairwise distinct columns
drawn from `avail`. -/
def pickAssignments : Nat → List Nat → List (List Nat)
  | 0, _ => [[]]
  | n + 1, avail =>
    avail.flatMap (fun c => (pickAssignments n (avail.erase c)).map (c :: ·))

/-- Total cost of a column assignment (row `i` gets column `asg[i]`). -/
def totalCost (cost : Nat → Nat → Rat) (asg : List Nat) : Rat :=
  (asg.enum.map (fun p => cost p.1 p.2)).sum

/-- First assignment of minimal total cost, scanning `a :: rest`. -/
def chooseMin (cost : Nat → Nat → Rat) (a : List Nat) (rest : List (List Nat)) : List Nat :=
  rest.foldl (fun acc b => if totalCost cost b < totalCost cost acc then b else acc) a

/-- Minimum-cost assignment for `n ≤ m`: exhaustive minimisation over all
one-to-one assignments of the `n` rows into the `m` columns. -/
def lsaLe (cost : Nat → Nat → Rat) (n m : Nat) : List (Nat × Nat) :=
  match pickAssignments n (List.range m) with
  | [] => []
  | a :: rest => (chooseMin cost a rest).enum

/-- Model of `scipy.optimize.linear_sum_assignment` on an `n × m` cost
matrix: a minimum-total-cost one-to-one pairing covering the smaller side,
with row indices in increasing order.  scipy does not document its
tie-break among equal-cost optima; this model fixes enumeration order, and
no theorem below depends on the tie-break. -/
def linear_sum_assignment (cost : Nat → Nat → Rat) (n m : Nat) : List (Nat × Nat) :=
  if n ≤ m then lsaLe cost n m
  else (lsaLe (fun i j => cost j i) m n).map (fun p => (p.2, p.1))

-- ── match_anomalies pipeline ───────────────────────────────────────────────

/-- Sentinel cost preventing the solver from selecting non-candidate
pairs. -/
def LARGE_COST : Rat := 1000000

/-- The three exact gates of the candidate loop (distance tolerance, clock
tolerance, type compatibility), in source order. -/
def isCandidate (a_l a_e : RunRow) : Bool :=
  decide (|a_l.corrected_distance - a_e.corrected_distance| ≤ DISTANCE_TOLERANCE_FT) &&
  decide (clock_distance a_l.clock_hours a_e.clock_hours ≤ CLOCK_TOLERANCE_HOURS) &&
  types_compatible a_l.event_type a_e.event_type

/-- Cost-matrix entry: `1 - similarity` for a gated candidate that also
passed the KD-tree pre-filter `kdF`, and the `LARGE_COST` sentinel
otherwise. -/
def costEntry (anomL anomE : List RunRow) (yb : Rat) (kdF : Nat → Nat → Bool)
    (i j : Nat) : Rat :=
  let a_l := anomL.getD i default
  let a_e := anomE.getD j default
  if kdF i j && isCandidate a_l a_e then 1 - compute_similarity a_l a_e yb
  else LARGE_COST

/-- `candidate_counts[i]`: number of earlier-run anomalies paired with later
anomaly `i` in the cost matrix (used for the uniqueness factor). -/
def candidateCount (anomL anomE : List RunRow) (kdF : Nat → Nat → Bool) (i : Nat) : Nat :=
  ((List.range anomE.length).filter
    (fun j => kdF i j && isCandidate (anomL.getD i default) (anomE.getD j default))).length

/-- The pairs chosen by the Hungarian solve over the cost matrix. -/
def matcherAssignment (anomL anomE : List RunRow) (yb : Rat)
    (kdF : Nat → Nat → Bool) : List (Nat × Nat) :=
  linear_sum_assignment (costEntry anomL anomE yb kdF) anomL.length anomE.length

/-- The chosen pairs that survive the cost cut
(`cost < 1 - LOW_CONFIDENCE`); the others are skipped as poor matches. -/
def matcherKeptPairs (anomL anomE : List RunRow) (yb : Rat)
    (kdF : Nat → Nat → Bool) : List (Nat × Nat) :=
  (matcherAssignment anomL anomE yb kdF).filter
    (fun p => decide (costEntry anomL anomE yb kdF p.1 p.2 < 1 - LOW_CONFIDENCE))

/-- The summary-statistics dictionary of `_compute_match_stats`; keys set
only on the non-empty path are `Option` (`none` = key absent, or NaN for
`avg_depth_growth_rate` with no valid rates). -/
structure MatchStats where
  total_matches : Nat
  new_anomalies : Option Nat := none
  missing_anomalies : Option Nat := none
  high_confidence : Option Nat := none
  medium_confidence : Option Nat := none
  low_confidence : Option Nat := none
  avg_similarity : Option Rat := none
  avg_confidence : Option Rat := none
  avg_depth_growth_rate : Option Rat := none
  negative_growth_count : Option Nat := none
  high_growth_count : Option Nat := none
deriving DecidableEq, Repr

/-- Mean of a list of rationals (pandas `.mean()` on a non-empty column). -/
def listMean (l : List Rat) : Rat := l.sum / (l.length : Rat)

/-- `_compute_match_stats` of matching.py. -/
def _compute_match_stats (matches' : List MatchRecord) (newA missA : List RunRow) :
    MatchStats :=
  let base : MatchStats :=
    { total_matches := matches'.length
      new_anomalies := some newA.length
      missing_anomalies := some missA.length }
  if matches'.length > 0 then
    let valid_rates := matches'.filterMap (fun m => m.depth_growth_rate)
    { base with
      high_confidence := some ((matches'.filter (fun m => m.confidence_label = "HIGH")).length)
      medium_confidence := some ((matches'.filter (fun m => m.confidence_label = "MEDIUM")).length)
      low_confidence := some ((matches'.filter (fun m => m.confidence_label = "LOW")).length)
      avg_similarity := some (roundTo 3 (listMean (matches'.map (fun m => m.similarity))))
      avg_confidence := some (roundTo 3 (listMean (matches'.map (fun m => m.confidence))))
      avg_depth_growth_rate :=
        if valid_rates.length > 0 then some (roundTo 3 (listMean valid_rates)) else none
      negative_growth_count := some ((valid_rates.filter (fun r => decide (r < 0))).length)
      high_growth_count :=
        some ((valid_rates.filter (fun r => decide (r > MAX_PLAUSIBLE_GROWTH_RATE))).length) }
  else base

/-- The dictionary returned by `match_anomalies`. -/
structure MatchResult where
  matches' : List MatchRecord
  new_anomalies : List RunRow
  missing_anomalies : List RunRow
  stats : MatchStats
deriving DecidableEq, Repr

/-- The match-record list built in the assignment loop: one record per kept
pair, scored and assembled from the two anomaly rows. -/
def matcherMatches (anomL anomE : List RunRow) (yb : Rat)
    (kdF : Nat → Nat → Bool) : List MatchRecord :=
  (matcherKeptPairs anomL anomE yb kdF).map (fun p =>
    let a_l := anomL.getD p.1 default
    let a_e := anomE.getD p.2 default
    let sim := 1 - costEntry anomL anomE yb kdF p.1 p.2
    let confidence :=
      _compute_confidence sim (candidateCount anomL anomE kdF p.1) a_l a_e yb
    _build_match_record a_l a_e sim confidence (_classify_confidence confidence) yb)

/-- `new_idx`: positions of later-run anomalies absent from
`matched_later`. -/
def matcherNewIdx (anomL anomE : List RunRow) (yb : Rat)
    (kdF : Nat → Nat → Bool) : List Nat :=
  (List.range anomL.length).filter
    (fun i => !(((matcherKeptPairs anomL anomE yb kdF).map (fun p => p.1)).contains i))

/-- `missing_idx`: positions of earlier-run anomalies absent from
`matched_earlier`. -/
def matcherMissingIdx (anomL anomE : List RunRow) (yb : Rat)
    (kdF : Nat → Nat → Bool) : List Nat :=
  (List.range anomE.length).filter
    (fun i => !(((matcherKeptPairs anomL anomE yb kdF).map (fun p => p.2)).contains i))

/-- `match_anomalies` of matching.py: anomaly extraction, KD-tree candidate
pre-filter (`kdF`), exact gating, cost matrix, Hungarian assignment,
cost-cut filtering, record building and new/missing classification. -/
def match_anomalies (run_later run_earlier : List RunRow) (years_between : Rat)
    (kdF : Nat → Nat → Bool) : MatchResult :=
  let anom_later := get_anomalies run_later
  let anom_earlier := get_anomalies run_earlier
  let n_later := anom_later.length
  let n_earlier := anom_earlier.length
  if n_later = 0 ∨ n_earlier = 0 then
    { matches' := []
      new_anomalies := anom_later
      missing_anomalies := anom_earlier
      stats := { total_matches := 0 } }
  else
    let matches' := matcherMatches anom_later anom_earlier years_between kdF
    let new_anomalies :=
      (matcherNewIdx anom_later anom_earlier years_between kdF).map
        (fun i => anom_later.getD i default)
    let missing_anomalies :=
      (matcherMissingIdx anom_later anom_earlier years_between kdF).map
        (fun i => anom_earlier.getD i default)
    { matches' := matches'
      new_anomalies := new_anomalies
      missing_anomalies := missing_anomalies
      stats := _compute_match_stats matches' new_anomalies missing_anomalies }

-- ── Multi-run chaining (backend/multi_run.py) ──────────────────────────────

/-- `YEARS_BETWEEN.get(pair, default)`. -/
def yearsBetweenGet (p : Int × Int) (dflt : Rat) : Rat :=
  (YEARS_BETWEEN.lookup p).getD dflt

/-- One triple-match row of `chain_three_runs`.  The source names the
per-year columns with the year number (e.g. `depth_2007`); here they are
positional (`_y1` earliest, `_y2` middle, `_y3` latest).
`overall_growth_rate` is assigned in a second pass over the built frame,
as in the source. -/
structure TripleRecord where
  lifecycle : String
  joint_y1 : Option Int
  distance_y1 : Rat
  clock_y1 : Option Rat
  depth_y1 : Option Rat
  length_y1 : Option Rat
  width_y1 : Option Rat
  row_idx_y1 : Nat
  joint_y2 : Option Int
  distance_y2 : Rat
  clock_y2 : Option Rat
  depth_y2 : Option Rat
  length_y2 : Option Rat
  width_y2 : Option Rat
  row_idx_y2 : Nat
  joint_y3 : Option Int
  distance_y3 : Rat
  clock_y3 : Option Rat
  depth_y3 : Option Rat
  length_y3 : Option Rat
  width_y3 : Option Rat
  row_idx_y3 : Nat
  confidence_12 : Rat
  confidence_23 : Rat
  min_confidence : Rat
  total_depth_growth : Option Rat
  total_years : Rat
  overall_growth_rate : Option Rat := none
deriving DecidableEq, Repr, Inhabited

/-- The `y2_to_y1` dict of `chain_three_runs`: later insertions overwrite,
so the lookup returns the last record of `matches_12` with the given
`later_row_idx`. -/
def y2_to_y1_get (matches_12 : List MatchRecord) (k : Nat) : Option MatchRecord :=
  matches_12.foldl (fun acc m => if m.later_row_idx = k then some m else acc) none

/-- The triple record assembled inside the `chain_three_runs` walk. -/
def mkTripleRecord (y1 y3 : Int) (m12 m23 : MatchRecord) : TripleRecord :=
  { lifecycle := "Tracked All 3 Runs"
    joint_y1 := m12.earlier_joint
    distance_y1 := m12.earlier_distance
    clock_y1 := m12.earlier_clock
    depth_y1 := m12.earlier_depth_pct
    length_y1 := m12.earlier_length_in
    width_y1 := m12.earlier_width_in
    row_idx_y1 := m12.earlier_row_idx
    joint_y2 := m23.earlier_joint
    distance_y2 := m23.earlier_distance
    clock_y2 := m23.earlier_clock
    depth_y2 := m23.earlier_depth_pct
    length_y2 := m23.earlier_length_in
    width_y2 := m23.earlier_width_in
    row_idx_y2 := m23.earlier_row_idx
    joint_y3 := m23.later_joint
    distance_y3 := m23.later_distance
    clock_y3 := m23.later_clock
    depth_y3 := m23.later_depth_pct
    length_y3 := m23.later_length_in
    width_y3 := m23.later_width_in
    row_idx_y3 := m23.later_row_idx
    confidence_12 := m12.confidence
    confidence_23 := m23.confidence
    min_confidence := min m12.confidence m23.confidence
    total_depth_growth := _safe_sub m23.later_depth_pct m12.earlier_depth_pct
    total_years := yearsBetweenGet (y1, y3) ((y3 - y1 : Int) : Rat) }

/-- `pairwise.get((ya, yb), {}).get("matches", empty)`. -/
def pairwiseMatches (pairwise : Int × Int → Option MatchResult) (p : Int × Int) :
    List MatchRecord :=
  match pairwise p with
  | some r => r.matches'
  | none => []

/-- The result dictionary of `chain_three_runs`. -/
structure ChainResult where
  triple_matches : List TripleRecord
  lifecycle_summary : List (String × Nat)
deriving DecidableEq, Repr

/-- `_build_lifecycle_summary` of multi_run.py. -/
def _build_lifecycle_summary (pairwise : Int × Int → Option MatchResult)
    (y1 y2 y3 : Int) (triple_df : List TripleRecord) : List (String × Nat) :=
  let m23_new := match pairwise (y2, y3) with
    | some r => r.new_anomalies.length
    | none => 0
  let m12_missing := match pairwise (y1, y2) with
    | some r => r.missing_anomalies.length
    | none => 0
  let m23_missing := match pairwise (y2, y3) with
    | some r => r.missing_anomalies.length
    | none => 0
  [("Tracked All 3 Runs", triple_df.length),
   (s!"New in {y2} (tracked to {y3})",
    (pairwiseMatches pairwise (y2, y3)).length - triple_df.length),
   (s!"New in {y3}", m23_new),
   (s!"Disappeared after {y1}", m12_missing),
   (s!"Disappeared after {y2}", m23_missing)]

/-- `chain_three_runs` of multi_run.py: join `matches_23` against the
`y2_to_y1` map keyed by `matches_12.later_row_idx`, then compute the
annualized overall growth rate column. -/
def chain_three_runs (pairwise : Int × Int → Option MatchResult)
    (y1 y2 y3 : Int) : ChainResult :=
  let matches_12 := pairwiseMatches pairwise (y1, y2)
  let matches_23 := pairwiseMatches pairwise (y2, y3)
  if matches_12.isEmpty || matches_23.isEmpty then
    { triple_matches := [], lifecycle_summary := [] }
  else
    let triples0 := matches_23.filterMap (fun m23 =>
      (y2_to_y1_get matches_12 m23.earlier_row_idx).map
        (fun m12 => mkTripleRecord y1 y3 m12 m23))
    let triple_df := triples0.map (fun t =>
      { t with overall_growth_rate :=
          t.total_depth_growth.map (fun g => roundTo 3 (g / t.total_years)) })
    { triple_matches := triple_df
      lifecycle_summary := _build_lifecycle_summary pairwise y1 y2 y3 triple_df }

-- ── Alignment (backend/alignment.py, backend/data_ingestion.py) ────────────

/-- `get_girth_welds` of data_ingestion.py: girth-weld rows with non-null
joint number and distance, sorted by log distance.  (pandas `sort_values`
uses an unstable quicksort; ties between equal distances are not relied on
by any theorem.) -/
def get_girth_welds (df : List RunRow) : List RunRow :=
  (df.filter (fun r => r.is_girth_weld && r.joint_number.isSome && r.log_distance_ft.isSome)).mergeSort
    (fun a b => decide (a.log_distance_ft.getD 0 ≤ b.log_distance_ft.getD 0))

/-- `drop_duplicates(subset="joint_number", keep="first")`: keep the first
row for each joint number.  All rows here have `some` joint numbers. -/
def dropDupJoints : List RunRow → List Int → List RunRow
  | [], _ => []
  | r :: rest, seen =>
    let j := r.joint_number.getD 0
    if seen.contains j then dropDupJoints rest seen
    else r :: dropDupJoints rest (j :: seen)

/-- The per-year series `joint_number -> log_distance_ft` built in
`match_girth_welds`. -/
def gwSeries (df : List RunRow) : List (Int × Rat) :=
  (dropDupJoints (get_girth_welds df) []).map
    (fun r => (r.joint_number.getD 0, r.log_distance_ft.getD 0))

/-- One row of the girth-weld alignment table: the joints common to all
runs with each run's distance reading.  The delta columns between
consecutive runs (dashboard only) are omitted. -/
structure GwAlignRow where
  joint_number : Int
  dists : List (Int × Rat)
deriving DecidableEq, Repr

/-- The sorted common joints of `match_girth_welds`
(`sorted(set.intersection(*joint_sets))`). -/
def commonJoints (gw_by_year : List (Int × List (Int × Rat))) : List Int :=
  match gw_by_year.map (fun p => p.2.map Prod.fst) with
  | [] => []
  | l :: ls => (l.filter (fun j => ls.all (fun l2 => l2.contains j))).mergeSort
      (fun a b => decide (a ≤ b))

/-- `match_girth_welds` of alignment.py over a year-keyed family of runs. -/
def match_girth_welds (runs : List (Int × List RunRow)) : List GwAlignRow :=
  let gw_by_year := runs.map (fun p => (p.1, gwSeries p.2))
  let sorted_years := gw_by_year.mergeSort (fun a b => decide (a.1 ≤ b.1))
  (commonJoints gw_by_year).map (fun jn =>
    { joint_number := jn
      dists := sorted_years.map (fun p => (p.1, (p.2.lookup jn).getD 0)) })

/-- `np.searchsorted(a, v)` (side left): binary search for the insertion
point.  On an unsorted array the binary search still runs and returns a
path-dependent index, exactly as numpy does — no error is raised. -/
def searchsortedAux (a : List Rat) (v : Rat) (lo hi : Nat) : Nat :=
  if h : lo < hi then
    if a.getD ((lo + hi) / 2) 0 < v then searchsortedAux a v ((lo + hi) / 2 + 1) hi
    else searchsortedAux a v lo ((lo + hi) / 2)
  else lo
termination_by hi - lo
decreasing_by
· have h2 : (lo + hi) / 2 < hi := Nat.div_lt_of_lt_mul (by omega)
  have h1 : lo ≤ (lo + hi) / 2 := (Nat.le_div_iff_mul_le (by omega)).mpr (by omega)
  omega
· have h2 : (lo + hi) / 2 < hi := Nat.div_lt_of_lt_mul (by omega)
  omega

def searchsorted (a : List Rat) (v : Rat) : Nat := searchsortedAux a v 0 a.length

/-- Evaluation of `scipy.interpolate.interp1d(kind="linear",
fill_value="extrapolate", assume_sorted=True)`: clip the searchsorted
index to `[1, n-1]` and interpolate (or extrapolate) on that segment.
Anchors with duplicate source distances give non-finite floats in scipy;
rational division by zero yields 0 here — no claim touches that case. -/
def interp1dLinear (xs ys : List Rat) (x : Rat) : Rat :=
  let n := xs.length
  let idx := min (max (searchsorted xs x) 1) (n - 1)
  let lo := idx - 1
  let x_lo := xs.getD lo 0
  let x_hi := xs.getD idx 0
  let y_lo := ys.getD lo 0
  let y_hi := ys.getD idx 0
  (y_hi - y_lo) / (x_hi - x_lo) * (x - x_lo) + y_lo

/-- The source column extracted by `build_distance_corrector`. -/
def gwColumn (gw_alignment : List GwAlignRow) (year : Int) : List Rat :=
  gw_alignment.map (fun r => (r.dists.lookup year).getD 0)

/-- `build_distance_corrector` of alignment.py.  `interp1d` with
`kind="linear"` raises `ValueError: x and y arrays must have at least 2
entries` on fewer than two anchors (there is no named
`insufficient_anchors` error in the code); with `assume_sorted=True` it
performs no monotonicity check whatsoever, so non-monotone anchors are
accepted silently. -/
def build_distance_corrector (gw_alignment : List GwAlignRow)
    (source_year : Int) (reference_year : Int) : Except String (Rat → Rat) :=
  let src_dists := gwColumn gw_alignment source_year
  let ref_dists := gwColumn gw_alignment reference_year
  if src_dists.length < 2 then
    Except.error "x and y arrays must have at least 2 entries"
  else
    Except.ok (fun x => interp1dLinear src_dists ref_dists x)

-- ── Concrete inputs used by witnesses and counterexamples ──────────────────

/-- A 2015 anomaly row: joint 5, 1000 ft, 3 o'clock, depth 20 %. -/
def aE1 : RunRow :=
  { event_type := "Metal Loss", is_anomaly := true, is_girth_weld := false
    log_distance_ft := some 1000, corrected_distance := 1000
    clock_hours := some 3, depth_pct := some 20, length_in := some 2
    width_in := some 1, joint_number := some 5, run_year := 2015, source_row_idx := 0 }

/-- The matching 2022 anomaly row: 1000.2 ft, depth 24 %. -/
def aL1 : RunRow :=
  { event_type := "Metal Loss", is_anomaly := true, is_girth_weld := false
    log_distance_ft := some (5001/5), corrected_distance := 5001/5
    clock_hours := some 3, depth_pct := some 24, length_in := some 2
    width_in := some 1, joint_number := some 5, run_year := 2022, source_row_idx := 0 }

/-- An earlier anomaly paired with `aL040` at similarity exactly 0.40:
distance gap exactly 3 ft, equal clocks, apparent shrinkage of 10 points,
missing dimensions, equal types. -/
def aE040 : RunRow :=
  { event_type := "Metal Loss", is_anomaly := true, is_girth_weld := false
    log_distance_ft := some 100, corrected_distance := 100
    clock_hours := some 3, depth_pct := some 20, length_in := none
    width_in := none, joint_number := some 5, run_year := 2015, source_row_idx := 0 }

/-- The later-run counterpart of `aE040`. -/
def aL040 : RunRow :=
  { event_type := "Metal Loss", is_anomaly := true, is_girth_weld := false
    log_distance_ft := some 103, corrected_distance := 103
    clock_hours := some 3, depth_pct := some 10, length_in := none
    width_in := none, joint_number := some 5, run_year := 2022, source_row_idx := 0 }

/-- A (2007, 2015) match record joining y1 row 11 to y2 row 22. -/
def mRec12 : MatchRecord :=
  { similarity := 1, confidence := 9/10, confidence_label := "HIGH"
    earlier_year := 2007, earlier_joint := some 5, earlier_distance := 100
    earlier_orig_distance := some 100, earlier_clock := some 3
    earlier_depth_pct := some 20, earlier_length_in := some 2
    earlier_width_in := some 1, earlier_event_type := "Metal Loss"
    earlier_row_idx := 11
    later_year := 2015, later_joint := some 5, later_distance := 100
    later_orig_distance := some 100, later_clock := some 3
    later_depth_pct := some 22, later_length_in := some 2
    later_width_in := some 1, later_event_type := "Metal Loss"
    later_row_idx := 22
    years_between := 8, depth_growth_pct := some 2, depth_growth_rate := some (1/4)
    length_growth_in := some 0, length_growth_rate := some 0
    width_growth_in := some 0, width_growth_rate := some 0 }

/-- A (2015, 2022) match record joining y2 row 22 to y3 row 33, with a
total 2007-to-2022 depth growth of exactly 1 point. -/
def mRec23 : MatchRecord :=
  { similarity := 1, confidence := 8/10, confidence_label := "MEDIUM"
    earlier_year := 2015, earlier_joint := some 5, earlier_distance := 100
    earlier_orig_distance := some 100, earlier_clock := some 3
    earlier_depth_pct := some 22, earlier_length_in := some 2
    earlier_width_in := some 1, earlier_event_type := "Metal Loss"
    earlier_row_idx := 22
    later_year := 2022, later_joint := some 5, later_distance := 100
    later_orig_distance := some 100, later_clock := some 3
    later_depth_pct := some 21, later_length_in := some 2
    later_width_in := some 1, later_event_type := "Metal Loss"
    later_row_idx := 33
    years_between := 7, depth_growth_pct := some (-1), depth_growth_rate := some (-143/1000)
    length_growth_in := some 0, length_growth_rate := some 0
    width_growth_in := some 0, width_growth_rate := some 0 }

/-- A pairwise-results map with one (2007, 2015) and one (2015, 2022)
match joined on y2 row 22. -/
def demoPairwise : Int × Int → Option MatchResult := fun p =>
  if p = (2007, 2015) then
    some { matches' := [mRec12], new_anomalies := [], missing_anomalies := []
           stats := { total_matches := 1 } }
  else if p = (2015, 2022) then
    some { matches' := [mRec23], new_anomalies := [], missing_anomalies := []
           stats := { total_matches := 1 } }
  else none

/-- A girth-weld table whose 2007 distances are not strictly increasing. -/
def gwNonMonotone : List GwAlignRow :=
  [{ joint_number := 10, dists := [(2007, 0), (2022, 0)] },
   { joint_number := 20, dists := [(2007, 5), (2022, 6)] },
   { joint_number := 30, dists := [(2007, 3), (2022, 7)] }]

-- ── Helper lemmas ──────────────────────────────────────────────────────────

theorem ratFloor_le (x : Rat) : (ratFloor x : Rat) ≤ x :=
  Rat.le_floor.mp (le_refl _)

theorem lt_ratFloor_add_one (x : Rat) : x < (ratFloor x : Rat) + 1 := by
  by_contra h
  push_neg at h
  have h2 : (ratFloor x + 1 : Int) ≤ ratFloor x := by
    have := Rat.le_floor.mpr (by push_cast; linarith : ((ratFloor x + 1 : Int) : Rat) ≤ x)
    exact this
  omega

theorem ratFloor_mono {x y : Rat} (h : x ≤ y) : ratFloor x ≤ ratFloor y := by
  have h1 : (ratFloor x : Rat) ≤ y := le_trans (ratFloor_le x) h
  exact Rat.le_floor.mpr h1

theorem rhe_ge_floor (x : Rat) : ratFloor x ≤ rhe x := by
  unfold rhe
  split
  · omega
  · split
    · split <;> omega
    · omega

theorem rhe_le_floor_add_one (x : Rat) : rhe x ≤ ratFloor x + 1 := by
  unfold rhe
  split
  · omega
  · split
    · split <;> omega
    · omega

theorem rhe_mono {x y : Rat} (h : x ≤ y) : rhe x ≤ rhe y := by
  rcases lt_or_eq_of_le (ratFloor_mono h) with hf | hf
  · have h1 := rhe_le_floor_add_one x
    have h2 := rhe_ge_floor y
    omega
  · unfold rhe
    rw [← hf]
    have hab : x - ratFloor x ≤ y - ratFloor x := by linarith
    split
    · -- rhe x is the floor, the minimum of all branches
      split
      · omega
      · split
        · split <;> omega
        · omega
    · rename_i hx1
      split
      · -- fractional part of x is exactly 1/2
        rename_i hx2
        split
        · -- parity even: left side is the floor itself
          split
          · omega
          · split
            · omega
            · omega
        · -- parity odd: left side is floor + 1, y rounds up as well
          rename_i hodd
          split
          · rename_i hy1
            linarith
          · split
            · omega
            · omega
      · -- fractional part of x exceeds 1/2, hence so does that of y
        rename_i hx2
        have hxgt : (1:Rat)/2 < x - ratFloor x :=
          lt_of_le_of_ne (not_lt.mp hx1) (Ne.symm hx2)
        split
        · rename_i hy1
          linarith
        · split
          · rename_i hy2
            linarith
          · omega

theorem rhe_nonneg {x : Rat} (h : 0 ≤ x) : 0 ≤ rhe x := by
  have h0 : rhe 0 ≤ rhe x := rhe_mono h
  have hz : rhe 0 = 0 := by with_unfolding_all decide
  omega

theorem roundTo_mono (n : Nat) {x y : Rat} (h : x ≤ y) : roundTo n x ≤ roundTo n y := by
  unfold roundTo
  have hp : (0:Rat) < ((10 ^ n : Nat) : Rat) := by positivity
  have hm : rhe (x * ((10 ^ n : Nat) : Rat)) ≤ rhe (y * ((10 ^ n : Nat) : Rat)) :=
    rhe_mono (mul_le_mul_of_nonneg_right h (le_of_lt hp))
  have hc : ((rhe (x * ((10 ^ n : Nat) : Rat)) : Int) : Rat)
      ≤ ((rhe (y * ((10 ^ n : Nat) : Rat)) : Int) : Rat) := by exact_mod_cast hm
  exact div_le_div_of_nonneg_right hc (le_of_lt hp)

theorem roundTo_nonneg (n : Nat) {x : Rat} (h : 0 ≤ x) : 0 ≤ roundTo n x := by
  unfold roundTo
  have hp : (0:Rat) < ((10 ^ n : Nat) : Rat) := by positivity
  have h1 : (0:Int) ≤ rhe (x * ((10 ^ n : Nat) : Rat)) :=
    rhe_nonneg (mul_nonneg h (le_of_lt hp))
  have h2 : (0:Rat) ≤ ((rhe (x * ((10 ^ n : Nat) : Rat)) : Int) : Rat) := by exact_mod_cast h1
  exact div_nonneg h2 (le_of_lt hp)

theorem mem_pickAssignments {n : Nat} {avail : List Nat} {a : List Nat}
    (hnd : avail.Nodup) (h : a ∈ pickAssignments n avail) :
    a.length = n ∧ a.Nodup ∧ ∀ c ∈ a, c ∈ avail := by
  induction n generalizing avail a with
  | zero =>
    simp only [pickAssignments, List.mem_singleton] at h
    subst h
    simp
  | succ n ih =>
    simp only [pickAssignments, List.mem_flatMap, List.mem_map] at h
    obtain ⟨c, hc, a', ha', rfl⟩ := h
    obtain ⟨hlen, hnd', hsub⟩ := ih (hnd.erase c) ha'
    refine ⟨by simp [hlen], ?_, ?_⟩
    · refine List.Nodup.cons ?_ hnd'
      intro hmem
      exact hnd.not_mem_erase (hsub c hmem)
    · intro d hd
      rcases List.mem_cons.mp hd with rfl | hd'
      · exact hc
      · exact List.mem_of_mem_erase (hsub d hd')

theorem chooseMin_cons (cost : Nat → Nat → Rat) (a b : List Nat) (r : List (List Nat)) :
    chooseMin cost a (b :: r) =
      chooseMin cost (if totalCost cost b < totalCost cost a then b else a) r := rfl

theorem chooseMin_mem (cost : Nat → Nat → Rat) (a : List Nat) (rest : List (List Nat)) :
    chooseMin cost a rest ∈ a :: rest := by
  induction rest generalizing a with
  | nil => simp [chooseMin]
  | cons b r ih =>
    rw [chooseMin_cons]
    have h := ih (if totalCost cost b < totalCost cost a then b else a)
    rcases List.mem_cons.mp h with h1 | h1
    · rw [h1]
      split <;> simp
    · exact List.mem_cons_of_mem _ (List.mem_cons_of_mem _ h1)

theorem lsaLe_mem {cost : Nat → Nat → Rat} {n m : Nat} {p : Nat × Nat}
    (h : p ∈ lsaLe cost n m) : p.1 < n ∧ p.2 < m := by
  unfold lsaLe at h
  split at h
  · simp at h
  · rename_i a rest heq
    have hbest : chooseMin cost a rest ∈ pickAssignments n (List.range m) := by
      rw [heq]; exact chooseMin_mem cost a rest
    obtain ⟨hlen, hnd, hsub⟩ := mem_pickAssignments (List.nodup_range m) hbest
    constructor
    · have h1 : p.1 ∈ (chooseMin cost a rest).enum.map Prod.fst := List.mem_map_of_mem _ h
      rw [List.enum_map_fst, hlen] at h1
      exact List.mem_range.mp h1
    · have h2 : p.2 ∈ (chooseMin cost a rest).enum.map Prod.snd := List.mem_map_of_mem _ h
      rw [List.enum_map_snd] at h2
      exact List.mem_range.mp (hsub _ h2)

theorem lsaLe_nodup_fst (cost : Nat → Nat → Rat) (n m : Nat) :
    ((lsaLe cost n m).map Prod.fst).Nodup := by
  unfold lsaLe
  split
  · simp
  · rw [List.enum_map_fst]
    exact List.nodup_range _

theorem lsaLe_nodup_snd (cost : Nat → Nat → Rat) (n m : Nat) :
    ((lsaLe cost n m).map Prod.snd).Nodup := by
  unfold lsaLe
  split
  · simp
  · rename_i a rest heq
    rw [List.enum_map_snd]
    have hbest : chooseMin cost a rest ∈ pickAssignments n (List.range m) := by
      rw [heq]; exact chooseMin_mem cost a rest
    exact (mem_pickAssignments (List.nodup_range m) hbest).2.1

theorem lsa_mem {cost : Nat → Nat → Rat} {n m : Nat} {p : Nat × Nat}
    (h : p ∈ linear_sum_assignment cost n m) : p.1 < n ∧ p.2 < m := by
  unfold linear_sum_assignment at h
  split at h
  · exact lsaLe_mem h
  · simp only [List.mem_map] at h
    obtain ⟨q, hq, rfl⟩ := h
    exact ⟨(lsaLe_mem hq).2, (lsaLe_mem hq).1⟩

theorem lsa_nodup_fst (cost : Nat → Nat → Rat) (n m : Nat) :
    ((linear_sum_assignment cost n m).map Prod.fst).Nodup := by
  unfold linear_sum_assignment
  split
  · exact lsaLe_nodup_fst _ _ _
  · rw [List.map_map]
    have he : (Prod.fst ∘ fun p : Nat × Nat => (p.2, p.1)) = Prod.snd := rfl
    rw [he]
    exact lsaLe_nodup_snd _ _ _

theorem lsa_nodup_snd (cost : Nat → Nat → Rat) (n m : Nat) :
    ((linear_sum_assignment cost n m).map Prod.snd).Nodup := by
  unfold linear_sum_assignment
  split
  · exact lsaLe_nodup_snd _ _ _
  · rw [List.map_map]
    have he : (Prod.snd ∘ fun p : Nat × Nat => (p.2, p.1)) = Prod.fst := rfl
    rw [he]
    exact lsaLe_nodup_fst _ _ _

theorem matcherKeptPairs_sublist (anomL anomE : List RunRow) (yb : Rat)
    (kdF : Nat → Nat → Bool) :
    (matcherKeptPairs anomL anomE yb kdF).Sublist (matcherAssignment anomL anomE yb kdF) :=
  List.filter_sublist _

theorem matcherKeptPairs_mem {anomL anomE : List RunRow} {yb : Rat}
    {kdF : Nat → Nat → Bool} {p : Nat × Nat}
    (h : p ∈ matcherKeptPairs anomL anomE yb kdF) :
    p.1 < anomL.length ∧ p.2 < anomE.length ∧
      costEntry anomL anomE yb kdF p.1 p.2 < 1 - LOW_CONFIDENCE := by
  unfold matcherKeptPairs at h
  rw [List.mem_filter] at h
  have h1 := h.1
  unfold matcherAssignment at h1
  have h2 := lsa_mem h1
  exact ⟨h2.1, h2.2, of_decide_eq_true h.2⟩

theorem matcherKeptPairs_candidate {anomL anomE : List RunRow} {yb : Rat}
    {kdF : Nat → Nat → Bool} {p : Nat × Nat}
    (h : p ∈ matcherKeptPairs anomL anomE yb kdF) :
    (kdF p.1 p.2 && isCandidate (anomL.getD p.1 default) (anomE.getD p.2 default)) = true ∧
      costEntry anomL anomE yb kdF p.1 p.2 =
        1 - compute_similarity (anomL.getD p.1 default) (anomE.getD p.2 default) yb := by
  have h3 := (matcherKeptPairs_mem h).2.2
  by_cases hb : (kdF p.1 p.2 && isCandidate (anomL.getD p.1 default) (anomE.getD p.2 default)) = true
  · refine ⟨hb, ?_⟩
    simp only [costEntry]
    rw [if_pos hb]
  · exfalso
    have hc : costEntry anomL anomE yb kdF p.1 p.2 = LARGE_COST := by
      simp only [costEntry]
      rw [if_neg hb]
    rw [hc] at h3
    norm_num [LARGE_COST, LOW_CONFIDENCE] at h3

theorem map_getD_range {α β : Type} [Inhabited α] (l : List α) (f : α → β) :
    (List.range l.length).map (fun i => f (l.getD i default)) = l.map f := by
  induction l with
  | nil => rfl
  | cons a t ih =>
    have h1 : (List.range (a :: t).length).map (fun i => f ((a :: t).getD i default))
        = f a :: (List.range t.length).map (fun i => f (t.getD i default)) := by
      rw [List.length_cons, List.range_succ_eq_map, List.map_cons, List.map_map]
      rfl
    rw [h1, ih, List.map_cons]

theorem append_filter_perm {E R : List Nat} (hE : E.Nodup) (hR : R.Nodup)
    (hsub : ∀ x ∈ E, x ∈ R) :
    (E ++ R.filter (fun x => !(E.contains x))).Perm R := by
  rw [List.perm_iff_count]
  intro a
  rw [List.count_append]
  by_cases ha : a ∈ E
  · rw [List.count_eq_one_of_mem hE ha, List.count_eq_one_of_mem hR (hsub a ha)]
    have h2 : (R.filter (fun x => !(E.contains x))).count a = 0 := by
      rw [List.count_eq_zero]
      intro hmem
      rw [List.mem_filter] at hmem
      have hf := hmem.2
      have hct : E.contains a = true := List.elem_iff.mpr ha
      rw [hct] at hf
      simp at hf
    omega
  · rw [List.count_eq_zero.mpr ha]
    have hcf : E.contains a = false := by
      cases hcb : E.contains a with
      | false => rfl
      | true => exact absurd (List.elem_iff.mp hcb) ha
    have hp : (!(E.contains a)) = true := by rw [hcf]; rfl
    have h2 : (R.filter (fun x => !(E.contains x))).count a = R.count a :=
      List.count_filter hp
    rw [h2]
    omega

theorem match_anomalies_empty (run_later run_earlier : List RunRow) (yb : Rat)
    (kdF : Nat → Nat → Bool)
    (h : (get_anomalies run_later).length = 0 ∨ (get_anomalies run_earlier).length = 0) :
    match_anomalies run_later run_earlier yb kdF =
      { matches' := []
        new_anomalies := get_anomalies run_later
        missing_anomalies := get_anomalies run_earlier
        stats := { total_matches := 0 } } := by
  unfold match_anomalies
  rw [if_pos h]

theorem match_anomalies_pos (run_later run_earlier : List RunRow) (yb : Rat)
    (kdF : Nat → Nat → Bool)
    (h : ¬((get_anomalies run_later).length = 0 ∨ (get_anomalies run_earlier).length = 0)) :
    match_anomalies run_later run_earlier yb kdF =
      { matches' := matcherMatches (get_anomalies run_later) (get_anomalies run_earlier) yb kdF
        new_anomalies :=
          (matcherNewIdx (get_anomalies run_later) (get_anomalies run_earlier) yb kdF).map
            (fun i => (get_anomalies run_later).getD i default)
        missing_anomalies :=
          (matcherMissingIdx (get_anomalies run_later) (get_anomalies run_earlier) yb kdF).map
            (fun i => (get_anomalies run_earlier).getD i default)
        stats := _compute_match_stats
          (matcherMatches (get_anomalies run_later) (get_anomalies run_earlier) yb kdF)
          ((matcherNewIdx (get_anomalies run_later) (get_anomalies run_earlier) yb kdF).map
            (fun i => (get_anomalies run_later).getD i default))
          ((matcherMissingIdx (get_anomalies run_later) (get_anomalies run_earlier) yb kdF).map
            (fun i => (get_anomalies run_earlier).getD i default)) } := by
  unfold match_anomalies
  rw [if_neg h]

theorem y2_fold_spec (k : Nat) (l : List MatchRecord) :
    ∀ (acc : Option MatchRecord) (m : MatchRecord),
      l.foldl (fun acc m' => if m'.later_row_idx = k then some m' else acc) acc = some m →
      (m ∈ l ∧ m.later_row_idx = k) ∨ acc = some m := by
  induction l with
  | nil =>
    intro acc m hh
    exact Or.inr hh
  | cons a t ih =>
    intro acc m hh
    simp only [List.foldl_cons] at hh
    rcases ih _ m hh with h1 | h1
    · exact Or.inl ⟨List.mem_cons_of_mem _ h1.1, h1.2⟩
    · by_cases hak : a.later_row_idx = k
      · rw [if_pos hak] at h1
        injection h1 with h1
        cases h1
        exact Or.inl ⟨List.mem_cons_self a t, hak⟩
      · rw [if_neg hak] at h1
        exact Or.inr h1

theorem y2_to_y1_get_spec {l : List MatchRecord} {k : Nat} {m : MatchRecord}
    (h : y2_to_y1_get l k = some m) : m ∈ l ∧ m.later_row_idx = k := by
  rcases y2_fold_spec k l none m h with h1 | h1
  · exact h1
  · simp at h1

theorem scoreGrowthRow_idem (r : GrowthRow) :
    scoreGrowthRow (scoreGrowthRow r) = scoreGrowthRow r := by
  cases r
  rfl

theorem headD_mem_of_ne_nil {α : Type} [Inhabited α] {l : List α} (h : l ≠ []) :
    l.headD default ∈ l := by
  cases l with
  | nil => exact absurd rfl h
  | cons a t => exact List.mem_cons_self a t

-- ── Claim theorems ─────────────────────────────────────────────────────────

/-- C8: the growth scorer is idempotent — applying `calculate_growth_rates`
to an already-scored match set leaves every derived column
(remaining_wall_pct, remaining_life_years, growth_class, risk_score,
risk_category) unchanged. -/
theorem growth_scorer_idempotent (matches_df : List GrowthRow) :
    calculate_growth_rates (calculate_growth_rates matches_df) =
      calculate_growth_rates matches_df := by
  unfold calculate_growth_rates
  cases matches_df with
  | nil => simp
  | cons a t =>
    simp only [List.isEmpty_cons, Bool.false_eq_true, if_false, List.map_cons,
      List.isEmpty_cons]
    rw [List.map_map]
    have h : scoreGrowthRow ∘ scoreGrowthRow = scoreGrowthRow := by
      funext r
      exact scoreGrowthRow_idem r
    rw [scoreGrowthRow_idem a, h]

/-- C9: `match_anomalies` never fails on data content — when either run has
zero anomalies it returns no matches, the whole later anomaly set as new,
the whole earlier anomaly set as missing, and statistics with
`total_matches = 0`. -/
theorem matcher_empty_input (run_later run_earlier : List RunRow) (yb : Rat)
    (kdF : Nat → Nat → Bool)
    (h : get_anomalies run_later = [] ∨ get_anomalies run_earlier = []) :
    (match_anomalies run_later run_earlier yb kdF).matches' = [] ∧
    (match_anomalies run_later run_earlier yb kdF).new_anomalies = get_anomalies run_later ∧
    (match_anomalies run_later run_earlier yb kdF).missing_anomalies =
      get_anomalies run_earlier ∧
    (match_anomalies run_later run_earlier yb kdF).stats.total_matches = 0 := by
  have h0 : (get_anomalies run_later).length = 0 ∨ (get_anomalies run_earlier).length = 0 := by
    rcases h with h | h <;> [left; right] <;> rw [h] <;> rfl
  rw [match_anomalies_empty run_later run_earlier yb kdF h0]
  exact ⟨rfl, rfl, rfl, rfl⟩

theorem matcher_empty_input_witness :
    (match_anomalies [aL1] [] 7 (fun _ _ => true)).matches' = [] ∧
    (match_anomalies [aL1] [] 7 (fun _ _ => true)).new_anomalies = get_anomalies [aL1] ∧
    (match_anomalies [aL1] [] 7 (fun _ _ => true)).missing_anomalies = get_anomalies [] ∧
    (match_anomalies [aL1] [] 7 (fun _ _ => true)).stats.total_matches = 0 :=
  matcher_empty_input [aL1] [] 7 (fun _ _ => true) (Or.inr rfl)

/-- C6 (amended): `remaining_life_years` is NaN when the growth rate is
NaN, non-positive, or the later depth is NaN; it is 0 when the rate is
positive and the depth is at least the 80 % threshold (including depth
exactly 80); and for a positive rate below the threshold it equals
`(80 - depth) / rate` rounded to one decimal (hence non-negative) — the
source rounds, so the un-rounded quotient of the original claim is not
returned exactly. -/
theorem remaining_life_characterization (row : GrowthRow) :
    (row.depth_growth_rate = none → _remaining_life row = none) ∧
    (∀ r, row.depth_growth_rate = some r → r ≤ 0 → _remaining_life row = none) ∧
    (row.later_depth_pct = none → _remaining_life row = none) ∧
    (∀ r d, row.depth_growth_rate = some r → row.later_depth_pct = some d →
      0 < r → WALL_LOSS_REPAIR_THRESHOLD ≤ d → _remaining_life row = some 0) ∧
    (∀ r d, row.depth_growth_rate = some r → row.later_depth_pct = some d →
      0 < r → d < WALL_LOSS_REPAIR_THRESHOLD →
      _remaining_life row = some (roundTo 1 ((WALL_LOSS_REPAIR_THRESHOLD - d) / r)) ∧
      0 ≤ roundTo 1 ((WALL_LOSS_REPAIR_THRESHOLD - d) / r)) := by
  refine ⟨?_, ?_, ?_, ?_, ?_⟩
  · intro hr
    unfold _remaining_life
    rw [hr]
  · intro r hr hle
    unfold _remaining_life
    rw [hr]
    cases hd : row.later_depth_pct with
    | none => rfl
    | some d => simp only [if_pos hle]
  · intro hd
    unfold _remaining_life
    rw [hd]
    cases row.depth_growth_rate <;> rfl
  · intro r d hr hd hpos hge
    unfold _remaining_life
    rw [hr, hd]
    show (if r ≤ 0 then none
      else if WALL_LOSS_REPAIR_THRESHOLD - d ≤ 0 then some 0
      else some (roundTo 1 ((WALL_LOSS_REPAIR_THRESHOLD - d) / r))) = some 0
    rw [if_neg (by linarith), if_pos (by linarith)]
  · intro r d hr hd hpos hlt
    unfold _remaining_life
    rw [hr, hd]
    refine ⟨?_, ?_⟩
    · show (if r ≤ 0 then none
        else if WALL_LOSS_REPAIR_THRESHOLD - d ≤ 0 then some 0
        else some (roundTo 1 ((WALL_LOSS_REPAIR_THRESHOLD - d) / r))) =
          some (roundTo 1 ((WALL_LOSS_REPAIR_THRESHOLD - d) / r))
      rw [if_neg (by linarith), if_neg (by linarith)]
    · apply roundTo_nonneg
      apply div_nonneg (by linarith) (le_of_lt hpos)

theorem remaining_life_characterization_witness :
    _remaining_life { later_depth_pct := some 79, depth_growth_rate := some 3 } =
      some (roundTo 1 ((WALL_LOSS_REPAIR_THRESHOLD - 79) / 3)) ∧
    0 ≤ roundTo 1 ((WALL_LOSS_REPAIR_THRESHOLD - 79) / 3) :=
  (remaining_life_characterization
      { later_depth_pct := some 79, depth_growth_rate := some 3 }).2.2.2.2 3 79 rfl rfl
    (by with_unfolding_all decide) (by with_unfolding_all decide)

/-- C6 counterexample: at depth 79 and rate 3 the code returns 0.3 years
(rounded to one decimal), not the exact quotient 1/3 that the claim's
"(80 − later depth) / rate" states. -/
theorem remaining_life_not_exact_quotient :
    _remaining_life { later_depth_pct := some 79, depth_growth_rate := some 3 } =
      some (3/10) ∧
    (3/10 : Rat) ≠ (WALL_LOSS_REPAIR_THRESHOLD - 79) / 3 := by
  constructor
  · with_unfolding_all decide
  · with_unfolding_all decide

/-- C4 (amended): `build_distance_corrector` fails (scipy interp1d's
generic `ValueError`, not a named `insufficient_anchors` error) exactly
when the girth-weld table has fewer than two rows — and the table has one
row per joint common to all runs; anchors whose source-year distances are
not strictly increasing are NOT detected: with `assume_sorted=True` the
corrector is built silently, with no sort and no error. -/
theorem corrector_failure_characterization (gw : List GwAlignRow)
    (src ref : Int) :
    ((build_distance_corrector gw src ref).isOk = true ↔ 2 ≤ gw.length) ∧
    ∀ runs : List (Int × List RunRow),
      (match_girth_welds runs).length =
        (commonJoints (runs.map (fun p => (p.1, gwSeries p.2)))).length := by
  constructor
  · unfold build_distance_corrector
    constructor
    · intro h
      by_contra hlen
      rw [if_pos] at h
      · simp [Except.isOk, Except.toBool] at h
      · unfold gwColumn
        rw [List.length_map]
        omega
    · intro h
      rw [if_neg]
      · rfl
      · unfold gwColumn
        rw [List.length_map]
        omega
  · intro runs
    unfold match_girth_welds
    rw [List.length_map]

/-- C4 counterexample: a three-anchor table whose 2007 source distances
(0, 5, 3) are not strictly increasing, on which the corrector is built
successfully instead of failing with `non_monotone_anchors`. -/
theorem nonmonotone_anchors_not_rejected :
    gwColumn gwNonMonotone 2007 = [0, 5, 3] ∧
    ¬ ((0:Rat) < 5 ∧ (5:Rat) < 3) ∧
    (build_distance_corrector gwNonMonotone 2007 2022).isOk = true := by
  refine ⟨?_, ?_, ?_⟩
  · with_unfolding_all decide
  · with_unfolding_all decide
  · with_unfolding_all rfl

/-- C7: the risk score is monotone — between two rows that differ only in
the (non-NaN) later depth, or only in the (non-NaN) depth growth rate, the
row with the larger value never gets a strictly smaller risk score. -/
theorem risk_score_monotone (row : GrowthRow) (d₁ d₂ r₁ r₂ : Rat) :
    (d₁ ≤ d₂ →
      _compute_risk_score { row with later_depth_pct := some d₁ } ≤
        _compute_risk_score { row with later_depth_pct := some d₂ }) ∧
    (r₁ ≤ r₂ →
      _compute_risk_score { row with depth_growth_rate := some r₁ } ≤
        _compute_risk_score { row with depth_growth_rate := some r₂ }) := by
  constructor
  · intro h
    unfold _compute_risk_score WALL_LOSS_REPAIR_THRESHOLD MAX_PLAUSIBLE_GROWTH_RATE
    apply roundTo_mono
    apply add_le_add_right
    apply min_le_min (le_refl _)
    show d₁ * 50 / 80 ≤ d₂ * 50 / 80
    exact div_le_div_of_nonneg_right
      (mul_le_mul_of_nonneg_right h (by norm_num)) (by norm_num)
  · intro h
    unfold _compute_risk_score WALL_LOSS_REPAIR_THRESHOLD MAX_PLAUSIBLE_GROWTH_RATE
    apply roundTo_mono
    apply add_le_add_left
    apply min_le_min (le_refl _)
    show (if r₁ < 0 then (0:Rat) else r₁) * 50 / 5 ≤ (if r₂ < 0 then 0 else r₂) * 50 / 5
    have heff : (if r₁ < 0 then (0:Rat) else r₁) ≤ (if r₂ < 0 then 0 else r₂) := by
      split <;> split <;> linarith
    exact div_le_div_of_nonneg_right
      (mul_le_mul_of_nonneg_right heff (by norm_num)) (by norm_num)

theorem risk_score_monotone_witness :
    _compute_risk_score { later_depth_pct := some 10, depth_growth_rate := some 1 } ≤
      _compute_risk_score { later_depth_pct := some 20, depth_growth_rate := some 1 } :=
  (risk_score_monotone { later_depth_pct := some 20, depth_growth_rate := some 1 }
      10 20 0 0).1 (by with_unfolding_all decide)

/-- C3 (amended): a pair chosen by the assignment is kept exactly when its
cost entry is below `1 - LOW_CONFIDENCE`, i.e. when it is a gated
candidate with similarity strictly above 0.40; in particular a chosen pair
whose similarity is exactly 0.40 has cost exactly 0.60 and is discarded,
not retained. -/
theorem cost_cut_iff (anomL anomE : List RunRow) (yb : Rat)
    (kdF : Nat → Nat → Bool) (p : Nat × Nat)
    (hp : p ∈ matcherAssignment anomL anomE yb kdF) :
    p ∈ matcherKeptPairs anomL anomE yb kdF ↔
      ((kdF p.1 p.2 && isCandidate (anomL.getD p.1 default) (anomE.getD p.2 default)) = true ∧
        LOW_CONFIDENCE < compute_similarity (anomL.getD p.1 default) (anomE.getD p.2 default) yb) := by
  constructor
  · intro h
    obtain ⟨hb, hc⟩ := matcherKeptPairs_candidate h
    have h3 := (matcherKeptPairs_mem h).2.2
    rw [hc] at h3
    refine ⟨hb, ?_⟩
    unfold LOW_CONFIDENCE at h3 ⊢
    linarith
  · intro hs
    unfold matcherKeptPairs
    rw [List.mem_filter]
    refine ⟨hp, decide_eq_true ?_⟩
    have hcn : costEntry anomL anomE yb kdF p.1 p.2 =
        1 - compute_similarity (anomL.getD p.1 default) (anomE.getD p.2 default) yb := by
      simp only [costEntry]
      rw [if_pos hs.1]
    rw [hcn]
    have := hs.2
    unfold LOW_CONFIDENCE at this ⊢
    linarith

theorem cost_cut_iff_witness :
    (0, 0) ∈ matcherKeptPairs [aL1] [aE1] 7 (fun _ _ => true) :=
  (cost_cut_iff [aL1] [aE1] 7 (fun _ _ => true) (0, 0)
      (by with_unfolding_all decide)).mpr
    ⟨by with_unfolding_all decide, by with_unfolding_all decide⟩

/-- C3 counterexample: the pair (aL040, aE040) is the unique chosen pair
and has similarity exactly 0.40 (cost exactly 0.60), yet the matches
output is empty — a chosen pair at similarity exactly 0.40 is discarded,
not retained as the claim states. -/
theorem similarity_exactly_threshold_discarded :
    compute_similarity aL040 aE040 7 = LOW_CONFIDENCE ∧
    matcherAssignment [aL040] [aE040] 7 (fun _ _ => true) = [(0, 0)] ∧
    (match_anomalies [aL040] [aE040] 7 (fun _ _ => true)).matches' = [] := by
  refine ⟨?_, ?_, ?_⟩ <;> with_unfolding_all decide

/-- C10: a missing clock position is disqualifying — `clock_distance`
returns the maximal value 6.0 when either side is NaN, so no candidate
with a NaN clock passes the 1.0-hour gate, and every emitted match record
has a non-NaN clock on both sides. -/
theorem clock_nan_disqualifies (run_later run_earlier : List RunRow) (yb : Rat)
    (kdF : Nat → Nat → Bool) :
    (∀ h : Option Rat, clock_distance none h = 6 ∧ clock_distance h none = 6) ∧
    ∀ rec ∈ (match_anomalies run_later run_earlier yb kdF).matches',
      rec.later_clock.isSome = true ∧ rec.earlier_clock.isSome = true := by
  constructor
  · intro h
    exact ⟨by cases h <;> rfl, by cases h <;> rfl⟩
  · intro rec hrec
    by_cases h0 : (get_anomalies run_later).length = 0 ∨ (get_anomalies run_earlier).length = 0
    · rw [match_anomalies_empty run_later run_earlier yb kdF h0] at hrec
      simp at hrec
    · rw [match_anomalies_pos run_later run_earlier yb kdF h0] at hrec
      have hrec' : rec ∈ matcherMatches (get_anomalies run_later)
          (get_anomalies run_earlier) yb kdF := hrec
      unfold matcherMatches at hrec'
      rw [List.mem_map] at hrec'
      obtain ⟨p, hp, rfl⟩ := hrec'
      have hcand := (matcherKeptPairs_candidate hp).1
      rw [Bool.and_eq_true] at hcand
      have hcc := hcand.2
      unfold isCandidate at hcc
      rw [Bool.and_eq_true, Bool.and_eq_true] at hcc
      have hclk := of_decide_eq_true hcc.1.2
      constructor
      · show ((((get_anomalies run_later).getD p.1 default).clock_hours.map
          (roundTo 2)).isSome) = true
        cases hcl : ((get_anomalies run_later).getD p.1 default).clock_hours with
        | none =>
          exfalso
          rw [hcl] at hclk
          have h6 : clock_distance none
              ((get_anomalies run_earlier).getD p.2 default).clock_hours = 6 := by
            cases ((get_anomalies run_earlier).getD p.2 default).clock_hours <;> rfl
          rw [h6] at hclk
          norm_num [CLOCK_TOLERANCE_HOURS] at hclk
        | some c => rfl
      · show ((((get_anomalies run_earlier).getD p.2 default).clock_hours.map
          (roundTo 2)).isSome) = true
        cases hcl : ((get_anomalies run_earlier).getD p.2 default).clock_hours with
        | none =>
          exfalso
          rw [hcl] at hclk
          have h6 : clock_distance
              ((get_anomalies run_later).getD p.1 default).clock_hours none = 6 := by
            cases ((get_anomalies run_later).getD p.1 default).clock_hours <;> rfl
          rw [h6] at hclk
          norm_num [CLOCK_TOLERANCE_HOURS] at hclk
        | some c => rfl

theorem clock_nan_disqualifies_witness :
    (((match_anomalies [aL1] [aE1] 7 (fun _ _ => true)).matches'.headD
        default).later_clock).isSome = true ∧
    (((match_anomalies [aL1] [aE1] 7 (fun _ _ => true)).matches'.headD
        default).earlier_clock).isSome = true :=
  (clock_nan_disqualifies [aL1] [aE1] 7 (fun _ _ => true)).2 _
    (headD_mem_of_ne_nil (by with_unfolding_all decide))

/-- C2: every emitted match row comes from an anomaly pair whose corrected
distances differ by at most 3.0 ft and whose circular clock distance is at
most 1.0 hour — the gating tolerances hold for every kept match. -/
theorem matcher_gates_hold (run_later run_earlier : List RunRow) (yb : Rat)
    (kdF : Nat → Nat → Bool) :
    ∀ rec ∈ (match_anomalies run_later run_earlier yb kdF).matches',
      ∃ a_l ∈ get_anomalies run_later, ∃ a_e ∈ get_anomalies run_earlier,
        rec.later_row_idx = a_l.source_row_idx ∧
        rec.earlier_row_idx = a_e.source_row_idx ∧
        |a_l.corrected_distance - a_e.corrected_distance| ≤ DISTANCE_TOLERANCE_FT ∧
        clock_distance a_l.clock_hours a_e.clock_hours ≤ CLOCK_TOLERANCE_HOURS := by
  intro rec hrec
  by_cases h0 : (get_anomalies run_later).length = 0 ∨ (get_anomalies run_earlier).length = 0
  · rw [match_anomalies_empty run_later run_earlier yb kdF h0] at hrec
    simp at hrec
  · rw [match_anomalies_pos run_later run_earlier yb kdF h0] at hrec
    have hrec' : rec ∈ matcherMatches (get_anomalies run_later)
        (get_anomalies run_earlier) yb kdF := hrec
    unfold matcherMatches at hrec'
    rw [List.mem_map] at hrec'
    obtain ⟨p, hp, rfl⟩ := hrec'
    have hmemb := matcherKeptPairs_mem hp
    have hcand := (matcherKeptPairs_candidate hp).1
    rw [Bool.and_eq_true] at hcand
    have hcc := hcand.2
    unfold isCandidate at hcc
    rw [Bool.and_eq_true, Bool.and_eq_true] at hcc
    have hdist := of_decide_eq_true hcc.1.1
    have hclk := of_decide_eq_true hcc.1.2
    refine ⟨(get_anomalies run_later).getD p.1 default, ?_,
      (get_anomalies run_earlier).getD p.2 default, ?_, rfl, rfl, hdist, hclk⟩
    · rw [List.getD_eq_getElem _ _ hmemb.1]
      exact List.getElem_mem _
    · rw [List.getD_eq_getElem _ _ hmemb.2.1]
      exact List.getElem_mem _

theorem matcher_gates_hold_witness :
    ∃ a_l ∈ get_anomalies [aL1], ∃ a_e ∈ get_anomalies [aE1],
      ((match_anomalies [aL1] [aE1] 7 (fun _ _ => true)).matches'.headD
          default).later_row_idx = a_l.source_row_idx ∧
      ((match_anomalies [aL1] [aE1] 7 (fun _ _ => true)).matches'.headD
          default).earlier_row_idx = a_e.source_row_idx ∧
      |a_l.corrected_distance - a_e.corrected_distance| ≤ DISTANCE_TOLERANCE_FT ∧
      clock_distance a_l.clock_hours a_e.clock_hours ≤ CLOCK_TOLERANCE_HOURS :=
  matcher_gates_hold [aL1] [aE1] 7 (fun _ _ => true) _
    (headD_mem_of_ne_nil (by with_unfolding_all decide))

/-- C5 (amended): every triple produced by the chainer for years
(2007, 2015, 2022) joins a (2007,2015) record and a (2015,2022) record on
the shared middle row index, carries `min_confidence` = min of the two
confidences, `total_depth_growth` = depth_y3 − depth_y1 (NaN-propagating),
`total_years` = 15 from the fixed years-between table, and
`overall_growth_rate` = total_depth_growth / total_years rounded to three
decimals — the source rounds, so the exact quotient of the original claim
is not stored. -/
theorem chainer_triple_fields (pairwise : Int × Int → Option MatchResult) :
    ∀ t ∈ (chain_three_runs pairwise 2007 2015 2022).triple_matches,
      ∃ m12 ∈ pairwiseMatches pairwise (2007, 2015),
        ∃ m23 ∈ pairwiseMatches pairwise (2015, 2022),
          t.row_idx_y2 = m12.later_row_idx ∧
          t.row_idx_y2 = m23.earlier_row_idx ∧
          t.min_confidence = min m12.confidence m23.confidence ∧
          t.total_depth_growth = _safe_sub m23.later_depth_pct m12.earlier_depth_pct ∧
          t.total_years = 15 ∧
          t.overall_growth_rate = t.total_depth_growth.map (fun g => roundTo 3 (g / 15)) := by
  intro t ht
  have hy : yearsBetweenGet (2007, 2022) (((2022 - 2007 : Int) : Int) : Rat) = 15 := by
    with_unfolding_all decide
  simp only [chain_three_runs] at ht
  split at ht
  · simp at ht
  · have ht' : t ∈ ((pairwiseMatches pairwise (2015, 2022)).filterMap (fun m23 =>
        (y2_to_y1_get (pairwiseMatches pairwise (2007, 2015)) m23.earlier_row_idx).map
          (fun m12 => mkTripleRecord 2007 2022 m12 m23))).map (fun t0 =>
        { t0 with overall_growth_rate :=
            t0.total_depth_growth.map (fun g => roundTo 3 (g / t0.total_years)) }) := ht
    rw [List.mem_map] at ht'
    obtain ⟨t0, ht0, rfl⟩ := ht'
    rw [List.mem_filterMap] at ht0
    obtain ⟨m23, hm23, hopt⟩ := ht0
    rw [Option.map_eq_some'] at hopt
    obtain ⟨m12, hm12eq, rfl⟩ := hopt
    have hspec := y2_to_y1_get_spec hm12eq
    have hyy : (mkTripleRecord 2007 2022 m12 m23).total_years = 15 := hy
    refine ⟨m12, hspec.1, m23, hm23, ?_, rfl, rfl, rfl, hyy, ?_⟩
    · exact hspec.2.symm
    · show (mkTripleRecord 2007 2022 m12 m23).total_depth_growth.map
        (fun g => roundTo 3 (g / (mkTripleRecord 2007 2022 m12 m23).total_years)) =
          (mkTripleRecord 2007 2022 m12 m23).total_depth_growth.map
            (fun g => roundTo 3 (g / 15))
      rw [hyy]

theorem chainer_triple_fields_witness :
    ∃ m12 ∈ pairwiseMatches demoPairwise (2007, 2015),
      ∃ m23 ∈ pairwiseMatches demoPairwise (2015, 2022),
        ((chain_three_runs demoPairwise 2007 2015 2022).triple_matches.headD
            default).row_idx_y2 = m12.later_row_idx ∧
        ((chain_three_runs demoPairwise 2007 2015 2022).triple_matches.headD
            default).row_idx_y2 = m23.earlier_row_idx ∧
        ((chain_three_runs demoPairwise 2007 2015 2022).triple_matches.headD
            default).min_confidence = min m12.confidence m23.confidence ∧
        ((chain_three_runs demoPairwise 2007 2015 2022).triple_matches.headD
            default).total_depth_growth =
          _safe_sub m23.later_depth_pct m12.earlier_depth_pct ∧
        ((chain_three_runs demoPairwise 2007 2015 2022).triple_matches.headD
            default).total_years = 15 ∧
        ((chain_three_runs demoPairwise 2007 2015 2022).triple_matches.headD
            default).overall_growth_rate =
          ((chain_three_runs demoPairwise 2007 2015 2022).triple_matches.headD
            default).total_depth_growth.map (fun g => roundTo 3 (g / 15)) :=
  chainer_triple_fields demoPairwise _
    (headD_mem_of_ne_nil (by with_unfolding_all decide))

/-- C5 counterexample: for the one triple of `demoPairwise` the total
depth growth is 1 point over 15 years, and the stored
`overall_growth_rate` is the rounded 0.067, not the exact quotient 1/15
that the claim's "equals total_depth_growth divided by total_years"
states. -/
theorem chainer_rounds_growth_rate :
    ((chain_three_runs demoPairwise 2007 2015 2022).triple_matches.map
      (fun t => (t.total_depth_growth, t.total_years, t.overall_growth_rate)))
      = [(some 1, 15, some (67/1000))] ∧
    (67/1000 : Rat) ≠ 1 / 15 := by
  constructor <;> with_unfolding_all decide

/-- C1: each `match_anomalies` result is a strict one-to-one partial
pairing partitioning the input anomaly sets — matches plus new_anomalies
are a permutation of the later-run anomaly row indices, matches plus
missing_anomalies are a permutation of the earlier-run anomaly row
indices (so every anomaly row index appears in exactly one of the three),
and when the per-run row indices are distinct no row index appears in
more than one match on either side. -/
theorem matcher_one_to_one_partition (run_later run_earlier : List RunRow)
    (yb : Rat) (kdF : Nat → Nat → Bool) :
    ((match_anomalies run_later run_earlier yb kdF).matches'.map
        (fun m => m.later_row_idx) ++
      (match_anomalies run_later run_earlier yb kdF).new_anomalies.map
        (fun r => r.source_row_idx)).Perm
      ((get_anomalies run_later).map (fun r => r.source_row_idx)) ∧
    ((match_anomalies run_later run_earlier yb kdF).matches'.map
        (fun m => m.earlier_row_idx) ++
      (match_anomalies run_later run_earlier yb kdF).missing_anomalies.map
        (fun r => r.source_row_idx)).Perm
      ((get_anomalies run_earlier).map (fun r => r.source_row_idx)) ∧
    (((get_anomalies run_later).map (fun r => r.source_row_idx)).Nodup →
      ((match_anomalies run_later run_earlier yb kdF).matches'.map
        (fun m => m.later_row_idx)).Nodup) ∧
    (((get_anomalies run_earlier).map (fun r => r.source_row_idx)).Nodup →
      ((match_anomalies run_later run_earlier yb kdF).matches'.map
        (fun m => m.earlier_row_idx)).Nodup) := by
  by_cases h0 : (get_anomalies run_later).length = 0 ∨ (get_anomalies run_earlier).length = 0
  · rw [match_anomalies_empty run_later run_earlier yb kdF h0]
    refine ⟨by simp, by simp, fun _ => by simp, fun _ => by simp⟩
  · rw [match_anomalies_pos run_later run_earlier yb kdF h0]
    have hmapL : (matcherMatches (get_anomalies run_later) (get_anomalies run_earlier) yb kdF).map
        (fun m => m.later_row_idx)
        = ((matcherKeptPairs (get_anomalies run_later) (get_anomalies run_earlier) yb kdF).map
            (fun p => p.1)).map
          (fun i => ((get_anomalies run_later).getD i default).source_row_idx) := by
      unfold matcherMatches
      rw [List.map_map, List.map_map]
      rfl
    have hmapE : (matcherMatches (get_anomalies run_later) (get_anomalies run_earlier) yb kdF).map
        (fun m => m.earlier_row_idx)
        = ((matcherKeptPairs (get_anomalies run_later) (get_anomalies run_earlier) yb kdF).map
            (fun p => p.2)).map
          (fun i => ((get_anomalies run_earlier).getD i default).source_row_idx) := by
      unfold matcherMatches
      rw [List.map_map, List.map_map]
      rfl
    have hndL : ((matcherKeptPairs (get_anomalies run_later) (get_anomalies run_earlier) yb kdF).map
        (fun p => p.1)).Nodup := by
      have hs : ((matcherKeptPairs (get_anomalies run_later) (get_anomalies run_earlier) yb kdF).map
          (fun p => p.1)).Sublist
          ((matcherAssignment (get_anomalies run_later) (get_anomalies run_earlier) yb kdF).map
            (fun p => p.1)) :=
        List.Sublist.map _ (matcherKeptPairs_sublist _ _ _ _)
      have hnd : ((matcherAssignment (get_anomalies run_later) (get_anomalies run_earlier) yb kdF).map
          (fun p => p.1)).Nodup := by
        unfold matcherAssignment
        exact lsa_nodup_fst _ _ _
      exact List.Nodup.sublist hs hnd
    have hndE : ((matcherKeptPairs (get_anomalies run_later) (get_anomalies run_earlier) yb kdF).map
        (fun p => p.2)).Nodup := by
      have hs : ((matcherKeptPairs (get_anomalies run_later) (get_anomalies run_earlier) yb kdF).map
          (fun p => p.2)).Sublist
          ((matcherAssignment (get_anomalies run_later) (get_anomalies run_earlier) yb kdF).map
            (fun p => p.2)) :=
        List.Sublist.map _ (matcherKeptPairs_sublist _ _ _ _)
      have hnd : ((matcherAssignment (get_anomalies run_later) (get_anomalies run_earlier) yb kdF).map
          (fun p => p.2)).Nodup := by
        unfold matcherAssignment
        exact lsa_nodup_snd _ _ _
      exact List.Nodup.sublist hs hnd
    have hsubL : ∀ x ∈ (matcherKeptPairs (get_anomalies run_later)
        (get_anomalies run_earlier) yb kdF).map (fun p => p.1),
        x ∈ List.range (get_anomalies run_later).length := by
      intro x hx
      rw [List.mem_map] at hx
      obtain ⟨p, hp, rfl⟩ := hx
      exact List.mem_range.mpr (matcherKeptPairs_mem hp).1
    have hsubE : ∀ x ∈ (matcherKeptPairs (get_anomalies run_later)
        (get_anomalies run_earlier) yb kdF).map (fun p => p.2),
        x ∈ List.range (get_anomalies run_earlier).length := by
      intro x hx
      rw [List.mem_map] at hx
      obtain ⟨p, hp, rfl⟩ := hx
      exact List.mem_range.mpr (matcherKeptPairs_mem hp).2.1
    have hpermL := (append_filter_perm hndL (List.nodup_range _) hsubL).map
      (fun i => ((get_anomalies run_later).getD i default).source_row_idx)
    rw [List.map_append] at hpermL
    have hRL : (List.range (get_anomalies run_later).length).map
        (fun i => ((get_anomalies run_later).getD i default).source_row_idx)
        = (get_anomalies run_later).map (fun r => r.source_row_idx) :=
      map_getD_range (get_anomalies run_later) (fun r => r.source_row_idx)
    rw [hRL] at hpermL
    have hpermE := (append_filter_perm hndE (List.nodup_range _) hsubE).map
      (fun i => ((get_anomalies run_earlier).getD i default).source_row_idx)
    rw [List.map_append] at hpermE
    have hRE : (List.range (get_anomalies run_earlier).length).map
        (fun i => ((get_anomalies run_earlier).getD i default).source_row_idx)
        = (get_anomalies run_earlier).map (fun r => r.source_row_idx) :=
      map_getD_range (get_anomalies run_earlier) (fun r => r.source_row_idx)
    rw [hRE] at hpermE
    have hgoalL : ((matcherMatches (get_anomalies run_later) (get_anomalies run_earlier) yb kdF).map
        (fun m => m.later_row_idx) ++
        ((matcherNewIdx (get_anomalies run_later) (get_anomalies run_earlier) yb kdF).map
          (fun i => (get_anomalies run_later).getD i default)).map
          (fun r => r.source_row_idx)).Perm
        ((get_anomalies run_later).map (fun r => r.source_row_idx)) := by
      have hnewfuse : ((matcherNewIdx (get_anomalies run_later) (get_anomalies run_earlier) yb kdF).map
          (fun i => (get_anomalies run_later).getD i default)).map (fun r => r.source_row_idx)
          = (matcherNewIdx (get_anomalies run_later) (get_anomalies run_earlier) yb kdF).map
            (fun i => ((get_anomalies run_later).getD i default).source_row_idx) := by
        rw [List.map_map]
        try rfl
      rw [hmapL, hnewfuse]
      unfold matcherNewIdx
      exact hpermL
    have hgoalE : ((matcherMatches (get_anomalies run_later) (get_anomalies run_earlier) yb kdF).map
        (fun m => m.earlier_row_idx) ++
        ((matcherMissingIdx (get_anomalies run_later) (get_anomalies run_earlier) yb kdF).map
          (fun i => (get_anomalies run_earlier).getD i default)).map
          (fun r => r.source_row_idx)).Perm
        ((get_anomalies run_earlier).map (fun r => r.source_row_idx)) := by
      have hmisfuse : ((matcherMissingIdx (get_anomalies run_later) (get_anomalies run_earlier) yb kdF).map
          (fun i => (get_anomalies run_earlier).getD i default)).map (fun r => r.source_row_idx)
          = (matcherMissingIdx (get_anomalies run_later) (get_anomalies run_earlier) yb kdF).map
            (fun i => ((get_anomalies run_earlier).getD i default).source_row_idx) := by
        rw [List.map_map]
        try rfl
      rw [hmapE, hmisfuse]
      unfold matcherMissingIdx
      exact hpermE
    refine ⟨hgoalL, hgoalE, ?_, ?_⟩
    · intro hnd
      have hLHS := (hgoalL.nodup_iff).mpr hnd
      rw [List.nodup_append] at hLHS
      exact hLHS.1
    · intro hnd
      have hLHS := (hgoalE.nodup_iff).mpr hnd
      rw [List.nodup_append] at hLHS
      exact hLHS.1

theorem matcher_one_to_one_partition_witness :
    ((match_anomalies [aL1] [aE1] 7 (fun _ _ => true)).matches'.map
      (fun m => m.later_row_idx)).Nodup ∧
    ((match_anomalies [aL1] [aE1] 7 (fun _ _ => true)).matches'.map
      (fun m => m.earlier_row_idx)).Nodup :=
  ⟨(matcher_one_to_one_partition [aL1] [aE1] 7 (fun _ _ => true)).2.2.1
      (by with_unfolding_all decide),
   (matcher_one_to_one_partition [aL1] [aE1] 7 (fun _ _ => true)).2.2.2
      (by with_unfolding_all decide)⟩
